import Mathlib

/-!
Verification of the outage-monitor MCP server (StatusGator client, tool
dispatcher and HTTP transport) against its specification.

The TypeScript source is shallowly embedded: upstream HTTP calls are
modelled by an `Upstream` record of oracles (a call that throws is an
`Except.error`), JavaScript `Date` parsing is modelled by an abstract
`parseDate : String → Int` field giving the epoch-millisecond instant of a
date string, and floating-point minute arithmetic is carried out in `ℚ`
with `Math.round` modelled as round-half-up.
-/

namespace OutageMonitor

deriving instance DecidableEq for Except

/-- The `Incident` interface from `src/statusgator.ts`. -/
structure Incident where
  id : String
  service_id : String
  service_name : String
  title : String
  description : String
  status : String
  severity : String
  created_at : String
  updated_at : String
  resolved_at : Option String := none
  url : Option String := none
deriving DecidableEq, Repr

/-- The `Service` interface from `src/statusgator.ts`. -/
structure Service where
  id : String
  name : String
  url : String
  status : String
  favicon : Option String := none
deriving DecidableEq, Repr

/-- The `ServiceStatus` interface from `src/statusgator.ts`. -/
structure ServiceStatus where
  service_id : String
  service_name : String
  status : String
  current_incidents : List Incident
  last_checked : String
deriving DecidableEq, Repr

/-- The `UptimeStats` interface from `src/statusgator.ts`; the two numeric
fields are an integer (after `Math.round`) and a rational (after rounding
to two decimals). -/
structure UptimeStats where
  service_id : String
  service_name : String
  period_start : String
  period_end : String
  total_incidents : Nat
  total_downtime_minutes : Int
  uptime_percentage : ℚ
  incidents : List Incident
deriving DecidableEq, Repr

/-- Return shape of `checkOutage`. -/
structure OutageResult where
  service : String
  hasOutage : Bool
  status : String
  incidents : List Incident
deriving DecidableEq, Repr

/-- The upstream StatusGator API together with the ambient clock, as seen
by one client session.  Each field models one `makeRequest` endpoint; an
`Except.error` is a thrown `Failed to fetch from StatusGator` error. -/
structure Upstream where
  services : Except String (List Service)
  serviceData : String → Except String Service
  incidents : String → Except String (List Incident)
  parseDate : String → Int
  now : String

/-- JavaScript `String.prototype.toLowerCase` (ASCII range). -/
def jsToLower (s : String) : String := ⟨s.data.map Char.toLower⟩

/-- JavaScript whitespace class used by `trim`. -/
def jsWhitespace (c : Char) : Bool :=
  c = ' ' ∨ c = '\t' ∨ c = '\n' ∨ c = '\r' ∨ c = '\x0b' ∨ c = '\x0c'

/-- JavaScript `String.prototype.trim`. -/
def jsTrim (s : String) : String :=
  ⟨((s.data.dropWhile jsWhitespace).reverse.dropWhile jsWhitespace).reverse⟩

/-- JavaScript `String.prototype.includes`: contiguous substring test. -/
def jsIncludes (s sub : String) : Bool := decide (sub.data <:+: s.data)

/-- JavaScript `Math.round`: round half towards positive infinity. -/
def jsRound (q : ℚ) : ℤ := ⌊q + 1/2⌋

/-- Model of `Math.round(x * 100) / 100`: rounding to two decimal places. -/
def round2 (q : ℚ) : ℚ := (jsRound (q * 100) : ℚ) / 100

/-- The `serviceMap` object literal of `StatusGatorClient`, as the ordered
list of its entries. -/
def serviceMapEntries : List (String × String) :=
  [("att", "att"),
   ("verizon", "verizon"),
   ("t-mobile", "t-mobile"),
   ("tmobile", "t-mobile"),
   ("aws", "amazon-web-services"),
   ("amazon-web-services", "amazon-web-services"),
   ("google-cloud", "google-cloud"),
   ("gcp", "google-cloud"),
   ("azure", "microsoft-azure"),
   ("microsoft-azure", "microsoft-azure")]

/-- Property lookup `this.serviceMap[key]`. -/
def serviceMap (key : String) : Option String :=
  (serviceMapEntries.find? fun p => p.1 = key).map Prod.snd

/-- Model of `this.serviceMap[normalizedName] || normalizedName` (all map values
are non-empty strings, so JS truthiness coincides with presence). -/
def mappedName (serviceName : String) : String :=
  let normalizedName := jsToLower (jsTrim serviceName)
  (serviceMap normalizedName).getD normalizedName

/-- The body of `searchService` after name normalisation: exact id /
lowercased-name match first, then partial (substring) match. -/
def searchCore (services : List Service) (mapped : String) : Option Service :=
  let exact := services.find? fun s => s.id = mapped ∨ jsToLower s.name = mapped
  match exact with
  | some s => some s
  | none =>
      services.find? fun s =>
        jsIncludes (jsToLower s.name) mapped ∨ jsIncludes s.id mapped

/-- Model of `searchService`: resolves a user-supplied name to a `Service`, or
`none` when nothing matches; throws when the `/services` request throws. -/
def searchService (env : Upstream) (serviceName : String) :
    Except String (Option Service) := do
  let services ← env.services
  .ok (searchCore services (mappedName serviceName))

/-- Model of `getServiceIncidents`: fetches `/services/{id}/incidents`, degrading a
thrown upstream error to an empty list (logged in the source). -/
def getServiceIncidents (env : Upstream) (serviceId : String) : List Incident :=
  match env.incidents serviceId with
  | .ok incidents => incidents
  | .error _ => []

/-- The `try` block of `getServiceStatus`: resolve the identifier (falling
back to the raw identifier), fetch service details and incidents, and
build the snapshot whose current incidents exclude status `"resolved"`
(case-sensitive). -/
def getServiceStatusTry (env : Upstream) (serviceIdentifier : String) :
    Except String ServiceStatus := do
  let service ← searchService env serviceIdentifier
  let serviceId := match service with
    | some s => s.id
    | none => serviceIdentifier
  let serviceData ← env.serviceData serviceId
  let incidentsData := getServiceIncidents env serviceId
  .ok { service_id := serviceData.id
        service_name := serviceData.name
        status := serviceData.status
        current_incidents := incidentsData.filter fun i => i.status ≠ "resolved"
        last_checked := env.now }

/-- Model of `getServiceStatus`: the `catch` converts any thrown error to `null`. -/
def getServiceStatus (env : Upstream) (serviceIdentifier : String) :
    Option ServiceStatus :=
  match getServiceStatusTry env serviceIdentifier with
  | .ok status => some status
  | .error _ => none

/-- Model of `checkOutage`: total — it never throws, reporting status `"unknown"`
when no snapshot can be obtained. -/
def checkOutage (env : Upstream) (serviceName : String) : OutageResult :=
  match getServiceStatus env serviceName with
  | none =>
      { service := serviceName
        hasOutage := false
        status := "unknown"
        incidents := [] }
  | some status =>
      { service := status.service_name
        hasOutage := (status.status != "operational") && (status.status != "up")
        status := status.status
        incidents := status.current_incidents }

/-- JavaScript truthiness test on an optional string argument: an absent
argument and the empty string are both falsy. -/
def jsTruthy (s : Option String) : Option String :=
  match s with
  | some "" => none
  | s => s

/-- Model of `if (startDate) { ... filter(i => new Date(i.created_at) >= start) }`. -/
def filterByStartDate (pd : String → Int) (startDate : Option String)
    (incidents : List Incident) : List Incident :=
  match startDate with
  | none => incidents
  | some startDate => incidents.filter fun i => pd startDate ≤ pd i.created_at

/-- Model of `if (endDate) { ... filter(i => new Date(i.created_at) <= end) }`. -/
def filterByEndDate (pd : String → Int) (endDate : Option String)
    (incidents : List Incident) : List Incident :=
  match endDate with
  | none => incidents
  | some endDate => incidents.filter fun i => pd i.created_at ≤ pd endDate

/-- Model of `if (status) { ... filter(i => i.status.toLowerCase() === status.toLowerCase()) }`. -/
def filterByStatus (status : Option String) (incidents : List Incident) :
    List Incident :=
  match status with
  | none => incidents
  | some status => incidents.filter fun i => jsToLower i.status = jsToLower status

/-- Model of `incidents.sort((a, b) => new Date(b.created_at).getTime() - new
Date(a.created_at).getTime())`: stable sort, newest first. -/
def sortNewestFirst (pd : String → Int) (incidents : List Incident) :
    List Incident :=
  incidents.mergeSort fun a b => decide (pd b.created_at ≤ pd a.created_at)

/-- The `try` block of `getHistoricalIncidents`: resolve (throwing a
not-found error when resolution yields `null`), fetch, filter by the
provided bounds and status, and sort newest-first. -/
def getHistoricalIncidentsTry (env : Upstream) (serviceName : String)
    (startDate endDate status : Option String) : Except String (List Incident) := do
  let service? ← searchService env serviceName
  match service? with
  | none => .error ("Service '" ++ serviceName ++ "' not found")
  | some service =>
      let incidents := getServiceIncidents env service.id
      let incidents := filterByStartDate env.parseDate (jsTruthy startDate) incidents
      let incidents := filterByEndDate env.parseDate (jsTruthy endDate) incidents
      let incidents := filterByStatus (jsTruthy status) incidents
      .ok (sortNewestFirst env.parseDate incidents)

/-- Model of `getHistoricalIncidents`: the surrounding `catch` converts every
thrown error — the not-found error included — to an empty list. -/
def getHistoricalIncidents (env : Upstream) (serviceName : String)
    (startDate endDate status : Option String) : List Incident :=
  match getHistoricalIncidentsTry env serviceName startDate endDate status with
  | .ok incidents => incidents
  | .error _ => []

/-- The `incidents.forEach` accumulation of `getServiceUptime`: total
downtime in minutes as a running sum over incidents with a `resolved_at`. -/
def downtimeFold (pd : String → Int) (incidents : List Incident) : ℚ :=
  incidents.foldl
    (fun acc incident =>
      match incident.resolved_at with
      | some r => acc + ((pd r - pd incident.created_at : ℤ) : ℚ) / (1000 * 60)
      | none => acc)
    0

/-- The `try` block of `getServiceUptime`. -/
def getServiceUptimeTry (env : Upstream)
    (serviceName startDate endDate : String) : Except String UptimeStats := do
  let service? ← searchService env serviceName
  match service? with
  | none => .error ("Service '" ++ serviceName ++ "' not found")
  | some service =>
      let incidents := getHistoricalIncidents env serviceName
        (some startDate) (some endDate) none
      let totalDowntimeMinutes := downtimeFold env.parseDate incidents
      let periodMinutes : ℚ :=
        ((env.parseDate endDate - env.parseDate startDate : ℤ) : ℚ) / (1000 * 60)
      let uptimePercentage : ℚ :=
        if 0 < periodMinutes then
          ((periodMinutes - totalDowntimeMinutes) / periodMinutes) * 100
        else 100
      .ok { service_id := service.id
            service_name := service.name
            period_start := startDate
            period_end := endDate
            total_incidents := incidents.length
            total_downtime_minutes := jsRound totalDowntimeMinutes
            uptime_percentage := round2 uptimePercentage
            incidents := incidents }

/-- Model of `getServiceUptime`: the `catch` converts any thrown error to `null`. -/
def getServiceUptime (env : Upstream) (serviceName startDate endDate : String) :
    Option UptimeStats :=
  match getServiceUptimeTry env serviceName startDate endDate with
  | .ok stats => some stats
  | .error _ => none

/-- Model of `getMultiServiceHistory`: a sequential for-loop over the caller's
names, building an object keyed by the caller-supplied name; modelled as
the association list in loop order. -/
def getMultiServiceHistory (env : Upstream) (services : List String)
    (startDate endDate : Option String) : List (String × List Incident) :=
  services.map fun serviceName =>
    (serviceName, getHistoricalIncidents env serviceName startDate endDate none)

/-- The `monitoredServices` list inside `getAllCurrentIncidents`. -/
def monitoredServices : List String :=
  ["att", "verizon", "t-mobile", "aws", "google-cloud", "azure"]

/-- Model of `getAllCurrentIncidents`: sequential loop over the monitored services,
collecting current incidents of the services whose status lookup works. -/
def getAllCurrentIncidents (env : Upstream) : List Incident :=
  monitoredServices.foldl
    (fun allIncidents serviceName =>
      match getServiceStatus env serviceName with
      | some status =>
          if status.current_incidents.length > 0 then
            allIncidents ++ status.current_incidents
          else allIncidents
      | none => allIncidents)
    []

/-! ### The MCP dispatcher of `src/server.ts` -/

/-- The argument object of a `tools/call` request, with each field `none`
when absent. -/
structure CallToolArgs where
  service : Option String := none
  service_name : Option String := none
  start_date : Option String := none
  end_date : Option String := none
  status : Option String := none
  services : Option (List String) := none
deriving DecidableEq, Repr

/-- The JSON shapes serialized into a successful tool response by the
`server.ts` dispatcher, one constructor per `case` branch. -/
inductive ToolPayload where
  | outage (r : OutageResult)
  | allOutages (total_services : Nat) (services_with_outages : Nat)
      (outages : List OutageResult) (all_statuses : List OutageResult)
  | status (s : ServiceStatus)
  | errObj (message : String)
  | allIncidents (total_incidents : Nat) (incidents : List Incident)
  | service (s : Service)
  | historical (service : String) (total_incidents : Nat)
      (start_date end_date status_filter : String) (incidents : List Incident)
  | uptime (u : UptimeStats)
  | multiHistory (services : List String) (total_incidents : Nat)
      (start_date end_date : String) (history : List (String × List Incident))
deriving DecidableEq, Repr

/-- The response envelope of the call-tool handler: a success envelope
around a payload, or an `isError: true` envelope around `{error: message}`
produced by the dispatch boundary's `catch`. -/
inductive ToolResponse where
  | success (payload : ToolPayload)
  | failure (message : String)
deriving DecidableEq, Repr

/-- The `isError` flag of a response envelope (absent ≃ `false`). -/
def ToolResponse.isError : ToolResponse → Bool
  | .success _ => false
  | .failure _ => true

/-- The `try`/`switch` body of the `CallToolRequestSchema` handler in
`src/server.ts`: argument validation and the upstream-client call of each
tool, with thrown errors as `Except.error`. -/
def dispatchToolTry (env : Upstream) (name : String) (args : CallToolArgs) :
    Except String ToolPayload :=
  if name = "check_outage" then
    match jsTruthy args.service with
    | none => .error "Service parameter is required"
    | some service => .ok (.outage (checkOutage env service))
  else if name = "check_all_outages" then
    let services := monitoredServices
    let results := services.map (checkOutage env)
    let outages := results.filter (·.hasOutage)
    .ok (.allOutages services.length outages.length outages results)
  else if name = "get_service_status" then
    match jsTruthy args.service with
    | none => .error "Service parameter is required"
    | some service =>
        match getServiceStatus env service with
        | none => .ok (.errObj ("Service '" ++ service ++ "' not found"))
        | some status => .ok (.status status)
  else if name = "get_all_incidents" then
    let incidents := getAllCurrentIncidents env
    .ok (.allIncidents incidents.length incidents)
  else if name = "search_service" then
    match jsTruthy args.service_name with
    | none => .error "service_name parameter is required"
    | some serviceName =>
        match searchService env serviceName with
        | .error e => .error e
        | .ok none => .ok (.errObj ("Service '" ++ serviceName ++ "' not found"))
        | .ok (some service) => .ok (.service service)
  else if name = "get_historical_incidents" then
    match jsTruthy args.service with
    | none => .error "Service parameter is required"
    | some service =>
        let incidents := getHistoricalIncidents env service
          args.start_date args.end_date args.status
        .ok (.historical service incidents.length
          ((jsTruthy args.start_date).getD "not specified")
          ((jsTruthy args.end_date).getD "not specified")
          ((jsTruthy args.status).getD "all")
          incidents)
  else if name = "get_service_uptime" then
    match jsTruthy args.service with
    | none => .error "Service parameter is required"
    | some service =>
        match jsTruthy args.start_date with
        | none => .error "start_date parameter is required"
        | some startDate =>
            match jsTruthy args.end_date with
            | none => .error "end_date parameter is required"
            | some endDate =>
                match getServiceUptime env service startDate endDate with
                | none => .ok (.errObj ("Service '" ++ service ++ "' not found"))
                | some uptime => .ok (.uptime uptime)
  else if name = "get_multi_service_history" then
    match args.services with
    | none => .error "services parameter is required and must be a non-empty array"
    | some [] => .error "services parameter is required and must be a non-empty array"
    | some services =>
        let history := getMultiServiceHistory env services
          args.start_date args.end_date
        let totalIncidents := (history.map fun p => p.2.length).sum
        .ok (.multiHistory services totalIncidents
          ((jsTruthy args.start_date).getD "not specified")
          ((jsTruthy args.end_date).getD "not specified")
          history)
  else .error ("Unknown tool: " ++ name)

/-- The call-tool handler: the `catch` at the dispatch boundary converts
every thrown error into an error-flagged envelope, so the handler is a
total function into response envelopes. -/
def handleCallTool (env : Upstream) (name : String) (args : CallToolArgs) :
    ToolResponse :=
  match dispatchToolTry env name args with
  | .ok payload => .success payload
  | .error message => .failure message

/-! ### The HTTP transport of `http-server.ts` -/

/-- Model of `extractBearerToken`, covering the match of `/^Bearer\s+(.+)$/i`:
a case-insensitive `Bearer` prefix, at least one whitespace character, and
a non-empty remainder which is the token.  (The regex's exotic edges — a
remainder that is entirely whitespace, or a token containing a newline —
are not modelled.) -/
def extractBearerToken (authHeader : Option String) : Option String :=
  match authHeader with
  | none => none
  | some h =>
      let cs := h.data
      if (cs.take 6).map Char.toLower = "bearer".data then
        let ws := (cs.drop 6).takeWhile jsWhitespace
        let tok := (cs.drop 6).dropWhile jsWhitespace
        if 0 < ws.length ∧ 0 < tok.length then some ⟨tok⟩ else none
      else none

/-- Model of `getApiKey`: request-supplied bearer token first, else the
process-level environment credential, else a thrown credential error. -/
def getApiKey (envApiKey : Option String) (authHeader : Option String) :
    Except String String :=
  match extractBearerToken authHeader with
  | some bearerToken => .ok bearerToken
  | none =>
      match jsTruthy envApiKey with
      | some key => .ok key
      | none => .error "No API key provided. Either set STATUSGATOR_API_KEY environment variable or provide Bearer token in Authorization header"

/-- The result object built by the HTTP handler's own `tools/call`
switch (it supports five tools). -/
inductive HttpToolResult where
  | outage (r : OutageResult)
  | allOutages (total_services : Nat) (services_with_outages : Nat)
      (outages : List OutageResult) (all_statuses : List OutageResult)
  | status (s : ServiceStatus)
  | errObj (message : String)
  | allIncidents (total_incidents : Nat) (incidents : List Incident)
  | service (s : Service)
deriving DecidableEq, Repr

/-- The `switch (toolName)` inside the HTTP `tools/call` branch. -/
def httpToolCall (env : Upstream) (toolName : String) (args : CallToolArgs) :
    Except String HttpToolResult :=
  if toolName = "check_outage" then
    match jsTruthy args.service with
    | none => .error "Service parameter is required"
    | some service => .ok (.outage (checkOutage env service))
  else if toolName = "check_all_outages" then
    let services := monitoredServices
    let results := services.map (checkOutage env)
    let outages := results.filter (·.hasOutage)
    .ok (.allOutages services.length outages.length outages results)
  else if toolName = "get_service_status" then
    match jsTruthy args.service with
    | none => .error "Service parameter is required"
    | some service =>
        match getServiceStatus env service with
        | none => .ok (.errObj ("Service '" ++ service ++ "' not found"))
        | some status => .ok (.status status)
  else if toolName = "get_all_incidents" then
    let incidents := getAllCurrentIncidents env
    .ok (.allIncidents incidents.length incidents)
  else if toolName = "search_service" then
    match jsTruthy args.service_name with
    | none => .error "service_name parameter is required"
    | some serviceName =>
        match searchService env serviceName with
        | .error e => .error e
        | .ok none => .ok (.errObj ("Service '" ++ serviceName ++ "' not found"))
        | .ok (some service) => .ok (.service service)
  else .error ("Unknown tool: " ++ toolName)

/-- An inbound `POST /mcp` request: the `Authorization` header and the
JSON-RPC body fields the handler reads. -/
structure McpRequest where
  authorization : Option String
  method : String
  id : Int
  toolName : String
  arguments : CallToolArgs
deriving Repr

/-- The handler's possible HTTP answers: the `initialize` result, the
empty `200` for the notification, the tool catalog, a tool-call result,
the `404`/`-32601` unknown-method error and the `500`/`-32603` error
produced by the surrounding `catch`. -/
inductive McpResponse where
  | initializeResult (id : Int)
  | accepted
  | toolsList (id : Int) (tools : List String)
  | toolCallResult (id : Int) (result : HttpToolResult)
  | methodNotFound (id : Int) (message : String)
  | internalError (id : Int) (message : String)
deriving DecidableEq, Repr

/-- The names of the five tools in the HTTP handler's inline catalog. -/
def httpToolNames : List String :=
  ["check_outage", "check_all_outages", "get_service_status",
   "get_all_incidents", "search_service"]

/-- The `app.post('/mcp')` handler.  `envApiKey` is the process-level
`STATUSGATOR_API_KEY`; `upstreamFor` gives the upstream API as seen by a
client constructed with a given key, modelling
`new StatusGatorClient(apiKey)`. -/
def handleMcpPost (envApiKey : Option String) (upstreamFor : String → Upstream)
    (req : McpRequest) : McpResponse :=
  if req.method = "initialize" then .initializeResult req.id
  else if req.method = "notifications/initialized" then .accepted
  else if req.method = "tools/list" then .toolsList req.id httpToolNames
  else if req.method = "tools/call" then
    match getApiKey envApiKey req.authorization with
    | .error message => .internalError req.id message
    | .ok apiKey =>
        match httpToolCall (upstreamFor apiKey) req.toolName req.arguments with
        | .error message => .internalError req.id message
        | .ok result => .toolCallResult req.id result
  else .methodNotFound req.id ("Method not found: " ++ req.method)

/-! ### Helper lemmas -/

lemma histTry_notFound (env : Upstream) (name : String)
    (s e st : Option String) (h : searchService env name = .ok none) :
    getHistoricalIncidentsTry env name s e st =
      .error ("Service '" ++ name ++ "' not found") := by
  unfold getHistoricalIncidentsTry
  rw [h]
  rfl

lemma hist_nil_of_unresolved (env : Upstream) (name : String)
    (s e st : Option String) (h : searchService env name = .ok none) :
    getHistoricalIncidents env name s e st = [] := by
  unfold getHistoricalIncidents
  rw [histTry_notFound env name s e st h]

/-! ### Concrete fixtures used by witnesses and counterexamples -/

/-- A service whose upstream status is exactly `"up"`. -/
def svcUp : Service :=
  { id := "svc-up", name := "Svc Up", url := "https://example.com", status := "up" }

/-- An upstream world containing only `svcUp`, with no incidents. -/
def envUp : Upstream :=
  { services := .ok [svcUp]
    serviceData := fun sid =>
      if sid = "svc-up" then .ok svcUp
      else .error "StatusGator API error: 404 Not Found"
    incidents := fun _ => .ok []
    parseDate := fun _ => 0
    now := "2026-10-11T00:00:00Z" }

/-- The snapshot `getServiceStatus` builds for `svcUp` in `envUp`. -/
def stUp : ServiceStatus :=
  { service_id := "svc-up", service_name := "Svc Up", status := "up"
    current_incidents := [], last_checked := "2026-10-11T00:00:00Z" }

/-- An upstream world in which every request throws. -/
def envDown : Upstream :=
  { services := .error "Failed to fetch from StatusGator: network error"
    serviceData := fun _ => .error "Failed to fetch from StatusGator: network error"
    incidents := fun _ => .error "Failed to fetch from StatusGator: network error"
    parseDate := fun _ => 0
    now := "2026-10-11T00:00:00Z" }

/-- An upstream world whose service list is empty, so that no name can be
resolved while the listing request itself succeeds. -/
def envEmptyServices : Upstream :=
  { services := .ok []
    serviceData := fun _ => .error "unused"
    incidents := fun _ => .ok []
    parseDate := fun _ => 0
    now := "2026-10-11T00:00:00Z" }

/-! ### C1 -/

/-- C1: for every service name for which `getServiceStatus` returns a
non-null snapshot, `checkOutage` reports `hasOutage = false` exactly when
the snapshot status is the literal `"operational"` or the literal `"up"`
(case-sensitive), and `hasOutage = true` for every other status string;
the reported status is the snapshot's status. -/
theorem checkOutage_hasOutage_iff (env : Upstream) (name : String)
    (st : ServiceStatus) (h : getServiceStatus env name = some st) :
    ((checkOutage env name).hasOutage = false ↔
      (st.status = "operational" ∨ st.status = "up")) ∧
    ((checkOutage env name).hasOutage = true ↔
      (st.status ≠ "operational" ∧ st.status ≠ "up")) ∧
    (checkOutage env name).status = st.status := by
  unfold checkOutage
  rw [h]
  refine ⟨?_, ?_, rfl⟩ <;> (simp; try tauto)

/-- Witness for C1 at a concrete world: `svcUp` has status `"up"`, so
`checkOutage` reports no outage. -/
theorem checkOutage_hasOutage_iff_witness :
    (checkOutage envUp "svc-up").hasOutage = false := by
  have h : getServiceStatus envUp "svc-up" = some stUp := by decide
  exact (checkOutage_hasOutage_iff envUp "svc-up" stUp h).1.mpr (Or.inr rfl)

/-! ### C5 -/

/-- C5: for every service name for which `getServiceStatus` returns null,
`checkOutage` returns `{service: name, hasOutage: false, status:
"unknown", incidents: []}`; being a total function it never throws. -/
theorem checkOutage_unknown_on_null (env : Upstream) (name : String)
    (h : getServiceStatus env name = none) :
    checkOutage env name =
      { service := name, hasOutage := false, status := "unknown",
        incidents := [] } := by
  unfold checkOutage
  rw [h]

/-- Witness for C5 at a concrete world where every upstream request
throws, so resolution fails entirely. -/
theorem checkOutage_unknown_on_null_witness :
    checkOutage envDown "unknown-service-xyz" =
      { service := "unknown-service-xyz", hasOutage := false,
        status := "unknown", incidents := [] } :=
  checkOutage_unknown_on_null envDown "unknown-service-xyz" (by decide)

/-! ### C3 -/

/-- Counterexample to C3: in a world whose service list is empty, the
`try` block of `getHistoricalIncidents` does throw the not-found error,
but the caller of `getHistoricalIncidents` receives the normal result `[]`
— the error does not propagate. -/
theorem getHistoricalIncidents_notFound_counterexample :
    getHistoricalIncidentsTry envEmptyServices "aws" none none none =
      .error "Service 'aws' not found" ∧
    getHistoricalIncidents envEmptyServices "aws" none none none = [] := by
  decide

/-- C3 (amended): for every service name that cannot be resolved, the
`try` block of `getHistoricalIncidents` throws a not-found error, but the
function's own `catch` converts it into an empty list returned normally;
the caller never observes the error. -/
theorem getHistoricalIncidents_notFound_swallowed (env : Upstream)
    (name : String) (s e st : Option String)
    (h : searchService env name = .ok none) :
    getHistoricalIncidentsTry env name s e st =
      .error ("Service '" ++ name ++ "' not found") ∧
    getHistoricalIncidents env name s e st = [] :=
  ⟨histTry_notFound env name s e st h, hist_nil_of_unresolved env name s e st h⟩

/-- Witness for the amended C3 at a concrete world and name. -/
theorem getHistoricalIncidents_notFound_swallowed_witness :
    getHistoricalIncidents envEmptyServices "gcp" none none none = [] :=
  (getHistoricalIncidents_notFound_swallowed envEmptyServices "gcp"
    none none none (by decide)).2

/-! ### Filter and sort lemmas for the historical pipeline -/

lemma mem_filterByStartDate (pd : String → Int) (o : Option String)
    (l : List Incident) (i : Incident) :
    i ∈ filterByStartDate pd o l ↔
      i ∈ l ∧ ∀ s ∈ o, pd s ≤ pd i.created_at := by
  cases o <;> simp [filterByStartDate]

lemma mem_filterByEndDate (pd : String → Int) (o : Option String)
    (l : List Incident) (i : Incident) :
    i ∈ filterByEndDate pd o l ↔
      i ∈ l ∧ ∀ e ∈ o, pd i.created_at ≤ pd e := by
  cases o <;> simp [filterByEndDate]

lemma mem_filterByStatus (o : Option String) (l : List Incident) (i : Incident) :
    i ∈ filterByStatus o l ↔
      i ∈ l ∧ ∀ f ∈ o, jsToLower i.status = jsToLower f := by
  cases o <;> simp [filterByStatus]

lemma mem_sortNewestFirst (pd : String → Int) (l : List Incident) (i : Incident) :
    i ∈ sortNewestFirst pd l ↔ i ∈ l := by
  unfold sortNewestFirst
  exact List.mem_mergeSort

lemma sortNewestFirst_perm (pd : String → Int) (l : List Incident) :
    (sortNewestFirst pd l).Perm l :=
  List.mergeSort_perm l _

lemma sortNewestFirst_sorted (pd : String → Int) (l : List Incident) :
    (sortNewestFirst pd l).Pairwise
      (fun a b => pd b.created_at ≤ pd a.created_at) := by
  have h : (l.mergeSort fun a b : Incident =>
        decide (pd b.created_at ≤ pd a.created_at)).Pairwise
      (fun a b : Incident =>
        decide (pd b.created_at ≤ pd a.created_at) = true) :=
    List.sorted_mergeSort
      (fun a b c hab hbc => by
        simp only [decide_eq_true_eq] at *
        omega)
      (fun a b => by
        simp only [Bool.or_eq_true, decide_eq_true_eq]
        omega)
      l
  exact h.imp fun hab => by simpa using hab

lemma hist_eq_of_resolved (env : Upstream) (name : String) (svc : Service)
    (l : List Incident) (s e st : Option String)
    (hres : searchService env name = .ok (some svc))
    (hinc : env.incidents svc.id = .ok l) :
    getHistoricalIncidents env name s e st =
      sortNewestFirst env.parseDate
        (filterByStatus (jsTruthy st)
          (filterByEndDate env.parseDate (jsTruthy e)
            (filterByStartDate env.parseDate (jsTruthy s) l))) := by
  unfold getHistoricalIncidents getHistoricalIncidentsTry getServiceIncidents
  rw [hres]
  simp only [bind, Except.bind]
  rw [hinc]

/-! ### C4 -/

/-- C4: under successful resolution, `getHistoricalIncidents` keeps
exactly the upstream incidents inside the inclusive `created_at` bounds
whose status matches the filter case-insensitively, and returns them
sorted newest-first (non-strictly, by parsed `created_at` instant); the
result is a permutation of the filtered upstream list. -/
theorem getHistoricalIncidents_filter_sort (env : Upstream) (name : String)
    (svc : Service) (l : List Incident) (s e st : Option String)
    (hres : searchService env name = .ok (some svc))
    (hinc : env.incidents svc.id = .ok l) :
    (∀ i, i ∈ getHistoricalIncidents env name s e st ↔
        i ∈ l ∧
        (∀ sd ∈ jsTruthy s, env.parseDate sd ≤ env.parseDate i.created_at) ∧
        (∀ ed ∈ jsTruthy e, env.parseDate i.created_at ≤ env.parseDate ed) ∧
        (∀ f ∈ jsTruthy st, jsToLower i.status = jsToLower f)) ∧
    (getHistoricalIncidents env name s e st).Pairwise
      (fun a b => env.parseDate b.created_at ≤ env.parseDate a.created_at) ∧
    (getHistoricalIncidents env name s e st).Perm
      (filterByStatus (jsTruthy st)
        (filterByEndDate env.parseDate (jsTruthy e)
          (filterByStartDate env.parseDate (jsTruthy s) l))) := by
  rw [hist_eq_of_resolved env name svc l s e st hres hinc]
  refine ⟨?_, sortNewestFirst_sorted _ _, sortNewestFirst_perm _ _⟩
  intro i
  rw [mem_sortNewestFirst, mem_filterByStatus, mem_filterByEndDate,
    mem_filterByStartDate]
  tauto

/-- Incident constructor for fixtures. -/
def mkIncident (iid sid created istatus : String) (resolved : Option String) :
    Incident :=
  { id := iid, service_id := sid, service_name := sid, title := "incident"
    description := "incident", status := istatus, severity := "major"
    created_at := created, updated_at := created, resolved_at := resolved }

/-- A service with a non-operational status and an incident history. -/
def svcH : Service :=
  { id := "svc-h", name := "Svc H", url := "https://example.com", status := "warn" }

/-- An old resolved incident (instant 10, before the queried range). -/
def incOld : Incident := mkIncident "i1" "svc-h" "d10" "resolved" (some "d20")

/-- An unresolved incident inside the queried range (instant 30). -/
def incMid : Incident := mkIncident "i2" "svc-h" "d30" "investigating" none

/-- A newer incident inside the range (instant 50) whose status is the
mixed-case `"Resolved"`. -/
def incNew : Incident := mkIncident "i3" "svc-h" "d50" "Resolved" (some "d60")

/-- Date parsing for the fixture strings. -/
def pdH : String → Int := fun s =>
  if s = "d10" then 10 else if s = "d20" then 20 else if s = "d30" then 30
  else if s = "d50" then 50 else if s = "d60" then 60
  else if s = "S" then 15 else if s = "E" then 55 else 0

/-- An upstream world holding `svcH` and its three incidents. -/
def envH : Upstream :=
  { services := .ok [svcH]
    serviceData := fun sid =>
      if sid = "svc-h" then .ok svcH
      else .error "StatusGator API error: 404 Not Found"
    incidents := fun sid =>
      if sid = "svc-h" then .ok [incOld, incMid, incNew] else .ok []
    parseDate := pdH
    now := "2026-10-11T00:00:00Z" }

/-- Witness for C4 at the fixture world: the in-range incident is kept and
the result is sorted newest-first. -/
theorem getHistoricalIncidents_filter_sort_witness :
    incMid ∈ getHistoricalIncidents envH "svc-h" (some "S") (some "E") none ∧
    (getHistoricalIncidents envH "svc-h" (some "S") (some "E") none).Pairwise
      (fun a b => envH.parseDate b.created_at ≤ envH.parseDate a.created_at) := by
  have h := getHistoricalIncidents_filter_sort envH "svc-h" svcH
    [incOld, incMid, incNew] (some "S") (some "E") none (by decide) (by decide)
  refine ⟨(h.1 incMid).mpr ⟨by decide, ?_, ?_, by simp [jsTruthy]⟩, h.2.1⟩
  · intro x hx
    simp [jsTruthy] at hx
    subst hx
    decide
  · intro x hx
    simp [jsTruthy] at hx
    subst hx
    decide

/-! ### C10 -/

/-- C10: the resolved-incident filter of `getServiceStatus` is
case-sensitive — the snapshot's current incidents are exactly the fetched
incidents whose status is not the exact lowercase literal `"resolved"`, so
a `"Resolved"` incident is retained as current even though the
case-insensitive status filter of `getHistoricalIncidents` treats
`"Resolved"` as matching `"resolved"`. -/
theorem getServiceStatus_current_filter (env : Upstream) (name : String)
    (svc : Service) (sd : Service) (l : List Incident)
    (hres : searchService env name = .ok (some svc))
    (hsd : env.serviceData svc.id = .ok sd)
    (hinc : env.incidents svc.id = .ok l) :
    ∃ st, getServiceStatus env name = some st ∧
      st.current_incidents = l.filter (fun i => i.status ≠ "resolved") ∧
      (∀ i, i ∈ st.current_incidents ↔ i ∈ l ∧ i.status ≠ "resolved") ∧
      (∀ i ∈ l, i.status = "Resolved" → i ∈ st.current_incidents) ∧
      (∀ i ∈ l, i.status = "Resolved" → i ∈ filterByStatus (some "resolved") l) := by
  have hst : getServiceStatus env name = some
      { service_id := sd.id, service_name := sd.name, status := sd.status
        current_incidents := l.filter fun i => i.status ≠ "resolved"
        last_checked := env.now } := by
    unfold getServiceStatus getServiceStatusTry getServiceIncidents
    rw [hres]
    simp only [bind, Except.bind]
    rw [hsd, hinc]
  refine ⟨_, hst, rfl, ?_, ?_, ?_⟩
  · intro i
    simp [List.mem_filter]
  · intro i hi hR
    simp only [List.mem_filter, decide_eq_true_eq]
    exact ⟨hi, by rw [hR]; decide⟩
  · intro i hi hR
    simp only [filterByStatus, List.mem_filter, decide_eq_true_eq]
    exact ⟨hi, by rw [hR]; decide⟩

/-- Witness for C10 at the fixture world: the `"Resolved"` incident is
retained among current incidents. -/
theorem getServiceStatus_current_filter_witness :
    ∃ st, getServiceStatus envH "svc-h" = some st ∧
      incNew ∈ st.current_incidents := by
  obtain ⟨st, h1, _, _, h4, _⟩ := getServiceStatus_current_filter envH "svc-h"
    svcH svcH [incOld, incMid, incNew] (by decide) (by decide) (by decide)
  exact ⟨st, h1, h4 incNew (by decide) rfl⟩

/-! ### C2 -/

/-- Per-incident downtime contribution as the specification states it:
`(resolved_at − created_at)` in minutes for an incident with a
`resolved_at`, and zero for an unresolved incident. -/
def downtimeContribution (pd : String → Int) (i : Incident) : ℚ :=
  match i.resolved_at with
  | some r => ((pd r - pd i.created_at : ℤ) : ℚ) / (1000 * 60)
  | none => 0

lemma downtimeFold_eq_sum (pd : String → Int) (l : List Incident) :
    downtimeFold pd l = (l.map (downtimeContribution pd)).sum := by
  have hf : (fun (acc : ℚ) (incident : Incident) =>
      match incident.resolved_at with
      | some r => acc + ((pd r - pd incident.created_at : ℤ) : ℚ) / (1000 * 60)
      | none => acc) =
      fun acc incident => acc + downtimeContribution pd incident := by
    funext acc incident
    cases h : incident.resolved_at <;> simp [downtimeContribution, h]
  have hsum : ∀ (m : List Incident) (a : ℚ),
      m.foldl (fun acc i => acc + downtimeContribution pd i) a =
        a + (m.map (downtimeContribution pd)).sum := by
    intro m
    induction m with
    | nil => simp
    | cons x xs ih =>
        intro a
        simp [ih, add_assoc]
  unfold downtimeFold
  rw [hf]
  simpa using hsum l 0

lemma jsRound_zero : jsRound 0 = 0 := by
  unfold jsRound
  rw [Int.floor_eq_iff]
  constructor <;> norm_num

lemma round2_hundred : round2 100 = 100 := by
  have h : jsRound (100 * 100) = 10000 := by
    unfold jsRound
    rw [Int.floor_eq_iff]
    constructor <;> norm_num
  unfold round2
  rw [h]
  norm_num

/-- C2: when the service resolves, `getServiceUptime` returns stats whose
`total_downtime_minutes` is the rounded sum of per-incident downtimes over
the in-range incidents (unresolved incidents contributing zero), and whose
`uptime_percentage` is `(period − downtime) / period × 100` rounded to two
decimals when the period is positive and `100` otherwise; zero in-range
incidents give downtime `0` and percentage `100`. -/
theorem getServiceUptime_spec (env : Upstream) (name startDate endDate : String)
    (svc : Service) (hres : searchService env name = .ok (some svc)) :
    ∃ u, getServiceUptime env name startDate endDate = some u ∧
      u.service_id = svc.id ∧
      u.service_name = svc.name ∧
      u.incidents =
        getHistoricalIncidents env name (some startDate) (some endDate) none ∧
      u.total_incidents =
        (getHistoricalIncidents env name (some startDate) (some endDate) none).length ∧
      u.total_downtime_minutes = jsRound
        (((getHistoricalIncidents env name (some startDate) (some endDate) none).map
          (downtimeContribution env.parseDate)).sum) ∧
      u.uptime_percentage =
        (if 0 < ((env.parseDate endDate - env.parseDate startDate : ℤ) : ℚ) / (1000 * 60) then
          round2 (((((env.parseDate endDate - env.parseDate startDate : ℤ) : ℚ) / (1000 * 60) -
            ((getHistoricalIncidents env name (some startDate) (some endDate) none).map
              (downtimeContribution env.parseDate)).sum) /
            (((env.parseDate endDate - env.parseDate startDate : ℤ) : ℚ) / (1000 * 60))) * 100)
        else 100) ∧
      (getHistoricalIncidents env name (some startDate) (some endDate) none = [] →
        u.total_downtime_minutes = 0 ∧
        (0 < ((env.parseDate endDate - env.parseDate startDate : ℤ) : ℚ) / (1000 * 60) →
          u.uptime_percentage = 100)) ∧
      (¬ 0 < ((env.parseDate endDate - env.parseDate startDate : ℤ) : ℚ) / (1000 * 60) →
        u.uptime_percentage = 100) := by
  have hu : getServiceUptime env name startDate endDate = some
      { service_id := svc.id
        service_name := svc.name
        period_start := startDate
        period_end := endDate
        total_incidents :=
          (getHistoricalIncidents env name (some startDate) (some endDate) none).length
        total_downtime_minutes := jsRound (downtimeFold env.parseDate
          (getHistoricalIncidents env name (some startDate) (some endDate) none))
        uptime_percentage := round2
          (if 0 < ((env.parseDate endDate - env.parseDate startDate : ℤ) : ℚ) / (1000 * 60) then
            ((((env.parseDate endDate - env.parseDate startDate : ℤ) : ℚ) / (1000 * 60) -
              downtimeFold env.parseDate
                (getHistoricalIncidents env name (some startDate) (some endDate) none)) /
              (((env.parseDate endDate - env.parseDate startDate : ℤ) : ℚ) / (1000 * 60))) * 100
          else 100)
        incidents :=
          getHistoricalIncidents env name (some startDate) (some endDate) none } := by
    unfold getServiceUptime getServiceUptimeTry
    rw [hres]
    simp only [bind, Except.bind]
  refine ⟨_, hu, rfl, rfl, rfl, rfl, ?_, ?_, ?_, ?_⟩
  · simp [downtimeFold_eq_sum]
  · rw [apply_ite round2, round2_hundred]
    simp [downtimeFold_eq_sum]
  · intro hnil
    rw [hnil]
    simp only [downtimeFold_eq_sum, hnil, List.map_nil, List.sum_nil]
    constructor
    · exact jsRound_zero
    · intro hP
      rw [if_pos hP, sub_zero, div_self (ne_of_gt hP)]
      simpa using round2_hundred
  · intro hP
    rw [apply_ite round2, round2_hundred]
    rw [if_neg hP]

/-- A degraded service used by the uptime witness. -/
def svcU : Service :=
  { id := "svc-u", name := "Svc U", url := "https://example.com",
    status := "degraded" }

/-- One incident created at instant 0 and resolved 60 minutes later. -/
def incU : Incident := mkIncident "u1" "svc-u" "T0" "investigating" (some "T60")

/-- Date parsing for the uptime fixture: the incident resolves one hour
after creation, the queried period is 24 hours. -/
def pdU : String → Int := fun s =>
  if s = "T60" then 3600000 else if s = "E24" then 86400000 else 0

/-- An upstream world holding `svcU` and its single one-hour incident. -/
def envU : Upstream :=
  { services := .ok [svcU]
    serviceData := fun sid =>
      if sid = "svc-u" then .ok svcU
      else .error "StatusGator API error: 404 Not Found"
    incidents := fun sid => if sid = "svc-u" then .ok [incU] else .ok []
    parseDate := pdU
    now := "2026-10-11T00:00:00Z" }

/-- Witness for C2: one incident resolved 60 minutes after creation over a
24-hour period gives `total_downtime_minutes = 60` and
`uptime_percentage = 95.83`. -/
theorem getServiceUptime_spec_witness :
    ∃ u, getServiceUptime envU "svc-u" "T0" "E24" = some u ∧
      u.total_downtime_minutes = 60 ∧ u.uptime_percentage = 9583 / 100 := by
  obtain ⟨u, hu, _, _, _, _, hd, hp, _, _⟩ :=
    getServiceUptime_spec envU "svc-u" "T0" "E24" svcU (by decide)
  have hl : getHistoricalIncidents envU "svc-u" (some "T0") (some "E24") none =
      [incU] := by
    rw [hist_eq_of_resolved envU "svc-u" svcU [incU] (some "T0") (some "E24")
      none (by decide) (by decide)]
    rw [show filterByStatus (jsTruthy none)
        (filterByEndDate envU.parseDate (jsTruthy (some "E24"))
          (filterByStartDate envU.parseDate (jsTruthy (some "T0")) [incU])) =
        [incU] from by decide]
    exact List.mergeSort_singleton incU
  have hT0 : envU.parseDate "T0" = 0 := by decide
  have hT60 : envU.parseDate "T60" = 3600000 := by decide
  have hE : envU.parseDate "E24" = 86400000 := by decide
  have hsum : ([incU].map (downtimeContribution envU.parseDate)).sum = (60 : ℚ) := by
    simp only [List.map_cons, List.map_nil, List.sum_cons, List.sum_nil]
    rw [show downtimeContribution envU.parseDate incU =
        ((envU.parseDate "T60" - envU.parseDate "T0" : ℤ) : ℚ) / (1000 * 60)
      from rfl]
    rw [hT60, hT0]
    norm_num
  refine ⟨u, hu, ?_, ?_⟩
  · rw [hd, hl, hsum]
    unfold jsRound
    rw [Int.floor_eq_iff]
    constructor <;> norm_num
  · rw [hp, hl, hsum, hE, hT0]
    rw [show ((86400000 - 0 : ℤ) : ℚ) / (1000 * 60) = 1440 from by norm_num]
    rw [if_pos (by norm_num : (0 : ℚ) < 1440)]
    have h9583 : jsRound ((1440 - 60) / 1440 * 100 * 100) = 9583 := by
      unfold jsRound
      rw [Int.floor_eq_iff]
      constructor <;> norm_num
    unfold round2
    rw [h9583]
    norm_num

/-! ### C8 -/

/-- C8: `getMultiServiceHistory` processes the caller's names in order and
returns a mapping keyed exactly by the caller-supplied strings, each
valued with that service's filtered incident list; an unresolvable name is
still a key, valued with the empty list. -/
theorem getMultiServiceHistory_spec (env : Upstream) (names : List String)
    (s e : Option String) :
    ((getMultiServiceHistory env names s e).map Prod.fst = names) ∧
    (∀ p ∈ getMultiServiceHistory env names s e,
        p.2 = getHistoricalIncidents env p.1 s e none) ∧
    (∀ n ∈ names,
        (n, getHistoricalIncidents env n s e none) ∈
          getMultiServiceHistory env names s e) ∧
    (∀ n ∈ names, searchService env n = .ok none →
        (n, ([] : List Incident)) ∈ getMultiServiceHistory env names s e) := by
  refine ⟨by simp [getMultiServiceHistory, Function.comp_def], ?_, ?_, ?_⟩
  · intro p hp
    simp only [getMultiServiceHistory, List.mem_map] at hp
    obtain ⟨n, _, rfl⟩ := hp
    rfl
  · intro n hn
    simp only [getMultiServiceHistory, List.mem_map]
    exact ⟨n, hn, rfl⟩
  · intro n hn h
    simp only [getMultiServiceHistory, List.mem_map]
    exact ⟨n, hn, by rw [hist_nil_of_unresolved env n s e none h]⟩

/-- Witness for C8: with one resolvable and one unresolvable name, the
keys are exactly the two input strings in order and the unresolvable name
maps to the empty list. -/
theorem getMultiServiceHistory_spec_witness :
    ((getMultiServiceHistory envH ["svc-h", "nope"] none none).map Prod.fst =
      ["svc-h", "nope"]) ∧
    ("nope", ([] : List Incident)) ∈
      getMultiServiceHistory envH ["svc-h", "nope"] none none := by
  have h := getMultiServiceHistory_spec envH ["svc-h", "nope"] none none
  exact ⟨h.1, h.2.2.2 "nope" (by simp) (by decide)⟩

/-! ### C9 -/

/-- C9: each recognized alias maps through the alias map to the same
canonical id as its long form, so `searchService` treats the two
identically in every upstream world; and every name in the
monitored-services default list is a key of the alias map or passes
through unchanged. -/
theorem serviceMap_alias_coherence :
    serviceMap "aws" = some "amazon-web-services" ∧
    serviceMap "amazon-web-services" = some "amazon-web-services" ∧
    serviceMap "gcp" = some "google-cloud" ∧
    serviceMap "google-cloud" = some "google-cloud" ∧
    serviceMap "tmobile" = some "t-mobile" ∧
    serviceMap "t-mobile" = some "t-mobile" ∧
    serviceMap "azure" = some "microsoft-azure" ∧
    serviceMap "microsoft-azure" = some "microsoft-azure" ∧
    (monitoredServices.all fun n =>
      (serviceMap n).isSome || ((serviceMap n).getD n == n)) = true ∧
    ∀ env : Upstream,
      searchService env "aws" = searchService env "amazon-web-services" ∧
      searchService env "gcp" = searchService env "google-cloud" ∧
      searchService env "tmobile" = searchService env "t-mobile" ∧
      searchService env "azure" = searchService env "microsoft-azure" := by
  refine ⟨by decide, by decide, by decide, by decide, by decide, by decide,
    by decide, by decide, by decide, ?_⟩
  intro env
  refine ⟨?_, ?_, ?_, ?_⟩
  · unfold searchService
    rw [show mappedName "aws" = mappedName "amazon-web-services" from by decide]
  · unfold searchService
    rw [show mappedName "gcp" = mappedName "google-cloud" from by decide]
  · unfold searchService
    rw [show mappedName "tmobile" = mappedName "t-mobile" from by decide]
  · unfold searchService
    rw [show mappedName "azure" = mappedName "microsoft-azure" from by decide]

/-! ### C6 -/

lemma extractBearerToken_bearer (t : String) (ht : t.data ≠ [])
    (hw : jsWhitespace t.data.headI = false) :
    extractBearerToken (some ("Bearer " ++ t)) = some t := by
  obtain ⟨c, cs, hcs⟩ : ∃ c cs, t.data = c :: cs := by
    cases h : t.data with
    | nil => exact absurd h ht
    | cons c cs => exact ⟨c, cs, rfl⟩
  have hwc : jsWhitespace c = false := by
    rw [hcs] at hw
    simpa using hw
  have hdata : ("Bearer " ++ t).data =
      'B' :: 'e' :: 'a' :: 'r' :: 'e' :: 'r' :: ' ' :: (c :: cs) := by
    rw [String.data_append, hcs]
    rfl
  simp only [extractBearerToken]
  rw [hdata]
  simp only [List.take, List.drop, List.map]
  rw [if_pos (by decide)]
  simp only [List.takeWhile_cons, List.dropWhile_cons, hwc]
  rw [show jsWhitespace ' ' = true from by decide]
  simp only [if_true, if_false, Bool.false_eq_true, reduceIte]
  rw [if_pos (by simp)]
  rw [← hcs]

/-- C6: on the HTTP transport, a `tools/call` with no bearer token and no
environment credential is rejected with the explicit no-API-key error —
uniformly in the upstream oracle, so no tool logic can have run — while
`initialize`, `notifications/initialized` and `tools/list` succeed with no
credential; and when both a bearer token and an environment credential are
present, the bearer token is the one used. -/
theorem http_credential_gate (up : String → Upstream) (id : Int)
    (tn : String) (ta : CallToolArgs) :
    (handleMcpPost none up
        { authorization := none, method := "tools/call", id := id,
          toolName := tn, arguments := ta } =
      .internalError id "No API key provided. Either set STATUSGATOR_API_KEY environment variable or provide Bearer token in Authorization header") ∧
    (handleMcpPost none up
        { authorization := none, method := "initialize", id := id,
          toolName := tn, arguments := ta } = .initializeResult id) ∧
    (handleMcpPost none up
        { authorization := none, method := "notifications/initialized",
          id := id, toolName := tn, arguments := ta } = .accepted) ∧
    (handleMcpPost none up
        { authorization := none, method := "tools/list", id := id,
          toolName := tn, arguments := ta } = .toolsList id httpToolNames) ∧
    (∀ (envKey : Option String) (t : String), t.data ≠ [] →
      jsWhitespace t.data.headI = false →
      getApiKey envKey (some ("Bearer " ++ t)) = .ok t) ∧
    (∀ (envKey : Option String) (t : String), t.data ≠ [] →
      jsWhitespace t.data.headI = false →
      handleMcpPost envKey up
          { authorization := some ("Bearer " ++ t), method := "tools/call",
            id := id, toolName := tn, arguments := ta } =
        handleMcpPost none up
          { authorization := some ("Bearer " ++ t), method := "tools/call",
            id := id, toolName := tn, arguments := ta }) := by
  have hkey : ∀ (envKey : Option String) (t : String), t.data ≠ [] →
      jsWhitespace t.data.headI = false →
      getApiKey envKey (some ("Bearer " ++ t)) = .ok t := by
    intro envKey t ht hw
    unfold getApiKey
    rw [extractBearerToken_bearer t ht hw]
  refine ⟨?_, by rfl, by rfl, ?_, hkey, ?_⟩
  · unfold handleMcpPost
    simp only [reduceIte, String.reduceEq]
    rfl
  · unfold handleMcpPost
    simp only [reduceIte, String.reduceEq]
  · intro envKey t ht hw
    unfold handleMcpPost
    simp only [reduceIte, String.reduceEq]
    rw [hkey envKey t ht hw, hkey none t ht hw]

/-- Witness for C6: a concrete bearer token wins over a concrete
environment credential, and `initialize` succeeds with no credential. -/
theorem http_credential_gate_witness :
    getApiKey (some "env-key") (some ("Bearer " ++ "sekret")) = .ok "sekret" ∧
    handleMcpPost none (fun _ => envDown)
        { authorization := none, method := "initialize", id := 1,
          toolName := "check_outage", arguments := {} } =
      .initializeResult 1 := by
  have h := http_credential_gate (fun _ => envDown) 1 "check_outage" {}
  exact ⟨h.2.2.2.2.1 (some "env-key") "sekret" (by decide) (by decide), h.2.1⟩

/-! ### C7 -/

/-- C7: the call-tool handler is total into response envelopes — every
error thrown while validating arguments or invoking the upstream client is
caught at the dispatch boundary and becomes an error-flagged envelope
carrying the error's message, and every normal result becomes a
non-error envelope; in particular a `check_outage` call with a missing
`service` argument yields the error-flagged required-parameter envelope
identically in every upstream world, so no upstream operation is
invoked. -/
theorem callTool_error_boundary (env env2 : Upstream) (name : String)
    (args : CallToolArgs) :
    (∀ m, dispatchToolTry env name args = .error m →
        handleCallTool env name args = .failure m ∧
        (handleCallTool env name args).isError = true) ∧
    (∀ p, dispatchToolTry env name args = .ok p →
        handleCallTool env name args = .success p ∧
        (handleCallTool env name args).isError = false) ∧
    (jsTruthy args.service = none →
        handleCallTool env "check_outage" args =
          .failure "Service parameter is required" ∧
        handleCallTool env "check_outage" args =
          handleCallTool env2 "check_outage" args) := by
  refine ⟨?_, ?_, ?_⟩
  · intro m hm
    unfold handleCallTool
    rw [hm]
    exact ⟨rfl, rfl⟩
  · intro p hp
    unfold handleCallTool
    rw [hp]
    exact ⟨rfl, rfl⟩
  · intro h
    have hdisp : ∀ e : Upstream,
        dispatchToolTry e "check_outage" args =
          .error "Service parameter is required" := by
      intro e
      unfold dispatchToolTry
      rw [if_pos rfl, h]
    constructor
    · unfold handleCallTool
      rw [hdisp env]
    · unfold handleCallTool
      rw [hdisp env, hdisp env2]

/-- Witness for C7: calling `check_outage` with no arguments in a world
where every upstream request would throw still yields the error-flagged
required-parameter envelope. -/
theorem callTool_error_boundary_witness :
    handleCallTool envDown "check_outage" {} =
      .failure "Service parameter is required" ∧
    (handleCallTool envDown "check_outage" {}).isError = true := by
  have h := callTool_error_boundary envDown envUp "check_outage" {}
  have h1 := h.1 "Service parameter is required" (by decide)
  exact ⟨h1.1, h1.2⟩

end OutageMonitor
